import Mathlib

/-!
Reminderoo: a shallow embedding of the reminder scheduling core.

This file embeds the reminder-scheduling core of the Reminderoo program
(`index.js`) in Lean 4 and proves properties of the embedded definitions.

Conventions of the embedding:

* JavaScript `Date` values are epoch milliseconds (`Int`); `d1 > d2` on dates
  compares the millisecond values.
* A JavaScript number that may be `NaN` (the result of `parseInt` on a
  non-numeric string) is `Option Int`, with `none` playing the role of `NaN`;
  every `NaN` comparison is false and arithmetic on `NaN` yields `NaN`.
* Exceptions are `Except`: a function that can `throw` returns `.error`,
  a `try`/`catch` block that swallows the exception returns `.ok`.
* Effects on external collaborators (file reads, Slack `postMessage`,
  HiBob `POST /shoutouts`) are recorded in an explicit trace (`List Call`),
  and the collaborators' behaviour is an explicit environment (`Env`).
* The module-level mutable objects (the `templates` cache, node-schedule's
  job registry) are explicit state values threaded through the functions.
-/

namespace Reminderoo

/-! ## JavaScript string and number primitives used by the source -/

/-- JavaScript `s.split(' ')`: split at every single space character, keeping
empty fragments; the result is never empty (`''.split(' ') = ['']`). -/
def splitSpaces : List Char → List (List Char)
  | [] => [[]]
  | c :: rest =>
    match splitSpaces rest with
    | [] => [[c]]
    | w :: ws => if c = ' ' then [] :: w :: ws else (c :: w) :: ws

/-- JavaScript `s.split(' ')` lifted to `String`. -/
def jsSplitSpace (s : String) : List String :=
  (splitSpaces s.data).map (fun cs => String.mk cs)

/-- Decimal value of a digit list. -/
def digitsVal (cs : List Char) : Nat :=
  cs.foldl (fun a c => a * 10 + (c.toNat - '0'.toNat)) 0

/-- JavaScript `parseInt(s)` (default radix 10): skip leading whitespace, read
an optional sign and then the maximal run of leading decimal digits; `NaN`
(here `none`) when no digit is found. -/
def parseIntJS (s : String) : Option Int :=
  let cs := s.data.dropWhile (fun c => c.isWhitespace)
  let signed : Int × List Char :=
    match cs with
    | '-' :: t => (-1, t)
    | '+' :: t => (1, t)
    | t => (1, t)
  let digits := signed.2.takeWhile (fun c => c.isDigit)
  if digits.isEmpty then none
  else some (signed.1 * (digitsVal digits : Int))

/-! ## Offset Parser: the source's `parseTimeToMinutes` destructures
`timeString.split(' ')` into `[amount, unit, ]` and switches on `unit`.
The returned JavaScript number is `NaN` when `parseInt(amount)` is `NaN`,
hence the `Option Int` payload. -/

/-- The `switch (unit)` block of `parseTimeToMinutes`: the recognized units
multiply the parsed amount by their minute factor; the `default` case throws
`Unsupported time unit: <unit>`. -/
def unitToMinutes (amount unit : String) : Except String (Option Int) :=
  match unit with
  | "day" | "days" => .ok ((parseIntJS amount).map (fun n => n * 24 * 60))
  | "hour" | "hours" => .ok ((parseIntJS amount).map (fun n => n * 60))
  | "minute" | "minutes" => .ok (parseIntJS amount)
  | u => .error ("Unsupported time unit: " ++ u)

/-- The function `parseTimeToMinutes` from `index.js`; `.error` is the thrown
error message. A string without a space leaves `unit` undefined in the
source, which the `default` case reports as the unit `undefined`. -/
def parseTimeToMinutes (timeString : String) : Except String (Option Int) :=
  match jsSplitSpace timeString with
  | amount :: unit :: _ => unitToMinutes amount unit
  | _ => .error "Unsupported time unit: undefined"

/-! ## Data model -/

/-- A calendar event as used by the core. `startMs` is
`new Date(event.start.dateTime || event.start.date).getTime()`: the absolute
start instant in epoch milliseconds. -/
structure Event where
  id : String
  summary : String
  startMs : Int
  location : Option String
  description : Option String
  htmlLink : Option String
  deriving DecidableEq, Repr

/-- One entry of `notificationConfig.notifications` (from
`notifications.yml`): a relative time string, a channel type and a template
file name. -/
structure NotificationRule where
  time : String
  type : String
  template : String
  deriving DecidableEq, Repr

/-- One entry of `NOTIFICATION_TIMES`:
`{ minutes: parseTimeToMinutes(n.time), originalTime: n.time }`.
`minutes` is `none` when the parsed amount was `NaN`. -/
structure ReminderOffset where
  minutes : Option Int
  originalTime : String
  deriving DecidableEq, Repr

/-- A pending one-shot timer created by `schedule.scheduleJob(reminderTime,
() => sendNotification(event, notification))`: the fire instant plus the data
the callback closes over. -/
structure ScheduledJob where
  fireMs : Int
  event : Event
  rule : ReminderOffset
  deriving DecidableEq, Repr

/-- Registry (node-schedule) of live (pending, unfired) jobs. -/
structure SchedulerState where
  jobs : List ScheduledJob
  deriving DecidableEq, Repr

/-- Model of `schedule.scheduleJob(date, callback)` with no job name: node-schedule
always creates a fresh anonymous `Job` and adds it to the registry; there is
no lookup or deduplication. -/
def scheduleJob (st : SchedulerState) (j : ScheduledJob) : SchedulerState :=
  { jobs := st.jobs ++ [j] }

/-! ## Poll cycle (`getUpcomingEvents`, `scheduleReminders`) -/

/-- The function `getUpcomingEvents`: the calendar call either yields the event list or
throws; the `catch` block logs and returns `[]`. The argument is the outcome
of the `calendar.events.list` collaborator call. -/
def getUpcomingEvents (fetchResult : Except String (List Event)) : List Event :=
  match fetchResult with
  | .ok items => items
  | .error _ => []

/-- Computation of `reminderTime = new Date(startTime.getTime() -
notification.minutes * 60000)`. `none` (an offset whose minutes are `NaN`) gives an Invalid Date. -/
def reminderTimeMs (event : Event) (off : ReminderOffset) : Option Int :=
  off.minutes.map (fun m => event.startMs - m * 60000)

/-- The body of the inner `NOTIFICATION_TIMES.forEach`: schedule the job when
`reminderTime > new Date()` (strict; an Invalid Date compares false). -/
def scheduleOne (nowMs : Int) (event : Event) (st : SchedulerState)
    (notification : ReminderOffset) : SchedulerState :=
  match reminderTimeMs event notification with
  | some t =>
      if nowMs < t then scheduleJob st ⟨t, event, notification⟩ else st
  | none => st

/-- The function `scheduleReminders`: fetch the upcoming events, then for every event and
every configured offset schedule the reminder whose fire instant is still in
the future. `nowMs` is the value of `new Date()` during the cycle. -/
def scheduleReminders (fetchResult : Except String (List Event))
    (notificationTimes : List ReminderOffset) (nowMs : Int)
    (st : SchedulerState) : SchedulerState :=
  let events := getUpcomingEvents fetchResult
  events.foldl
    (fun st event => notificationTimes.foldl (scheduleOne nowMs event) st) st

/-! ## Dispatch side (`getTemplate`, `formatEventData`, senders,
`sendNotification`)

Calls to external collaborators are recorded in a trace; the collaborators'
responses are a fixed environment `Env`. -/

/-- Data used to fill a template (`formatEventData`'s result). -/
structure EventData where
  eventTitle : String
  eventTime : String
  eventLocation : String
  eventDescription : String
  eventLink : String
  deriving DecidableEq, Repr

/-- A compiled Handlebars template; `Handlebars.compile` is a pure wrapper
around the template source, deterministic per content. -/
structure Template where
  src : String
  deriving DecidableEq, Repr

/-- A call to an external collaborator. -/
inductive Call where
  /-- A call `fs.readFileSync(path, 'utf8')`. -/
  | readFile (path : String)
  /-- A call `slack.chat.postMessage({channel, text, parse: 'mrkdwn'})`. -/
  | postMessage (channel : String) (text : String)
  /-- A call `hibob.post('/shoutouts', {text, type, visibility})`. -/
  | hibobPost (text : String) (shoutoutType : String) (visibility : String)
  deriving DecidableEq, Repr

/-- Returns `true` for the calls that deliver a notification (as opposed to reading a
template file). -/
def Call.isDelivery : Call → Bool
  | .readFile _ => false
  | .postMessage _ _ => true
  | .hibobPost _ _ _ => true

/-- An error thrown inside the dispatch path. -/
inductive JsError where
  /-- Thrown by `readFileSync`: the template file is missing (TemplateNotFound). -/
  | fileNotFound (path : String)
  /-- Thrown by the compiled template while rendering (RenderError). -/
  | renderError (message : String)
  deriving DecidableEq, Repr

/-- The fixed behaviour of the external world during one unit of work:
the file system, the renderer, the environment variables and the outcome of
each delivery collaborator call. -/
structure Env where
  /-- The file system: `path ↦ content`; `none` makes `readFileSync` throw. -/
  files : String → Option String
  /-- Result of `template(eventData)`: rendered text, or a thrown error. -/
  renderResult : String → EventData → Except String String
  /-- Behaviour of `Date.prototype.toLocaleString` applied to the start instant. -/
  localeString : Int → String
  /-- Value of `process.env.SLACK_CHANNEL_ID`. -/
  slackChannelId : String
  /-- Value of `process.env.HIBOB_SHOUTOUT_TYPE`. -/
  hibobShoutoutType : String
  /-- Value of `process.env.HIBOB_SHOUTOUT_VISIBILITY`. -/
  hibobVisibility : String
  /-- Outcome of `slack.chat.postMessage` (`.error` = DeliveryError). -/
  slackOutcome : Except String Unit
  /-- Outcome of `hibob.post('/shoutouts', …)` (`.error` = DeliveryError). -/
  hibobOutcome : Except String Unit

/-- The module-level `templates` cache object (`const templates = {}`),
as the association list of its own properties; assignment prepends. -/
structure TemplateCache where
  templates : List (String × Template)
  deriving DecidableEq, Repr

/-- The path `path.join(__dirname, 'config', 'templates', templateName)`. -/
def templatePath (templateName : String) : String :=
  "config/templates/" ++ templateName

/-- The function `getTemplate`: return the cached compiled template, or read the file,
compile it and cache it. Returns the updated cache, the trace of file reads,
and the template or the thrown error. -/
def getTemplate (env : Env) (st : TemplateCache) (templateName : String) :
    TemplateCache × List Call × Except JsError Template :=
  match st.templates.lookup templateName with
  | some t => (st, [], .ok t)
  | none =>
    match env.files (templatePath templateName) with
    | none =>
      (st, [.readFile (templatePath templateName)],
        .error (.fileNotFound (templatePath templateName)))
    | some content =>
      ({ templates := (templateName, ⟨content⟩) :: st.templates },
        [.readFile (templatePath templateName)], .ok ⟨content⟩)

/-- The function `formatEventData`: each optional field becomes `''` when absent. -/
def formatEventData (env : Env) (event : Event) : EventData :=
  { eventTitle := event.summary
    eventTime := env.localeString event.startMs
    eventLocation := event.location.getD ""
    eventDescription := event.description.getD ""
    eventLink := event.htmlLink.getD "" }

/-- The function `sendSlackMessage`: one `postMessage` call inside `try { … } catch
(error) { console.error(…) }` — the catch swallows the error and nothing is
retried, so the function always returns normally after exactly one call. -/
def sendSlackMessage (env : Env) (message : String) :
    List Call × Except JsError Unit :=
  match env.slackOutcome with
  | .ok _ => ([.postMessage env.slackChannelId message], .ok ())
  | .error _ => ([.postMessage env.slackChannelId message], .ok ())

/-- The function `sendHiBobShoutout`: one `hibob.post('/shoutouts', …)` call inside
`try`/`catch`; the catch swallows the error, nothing is retried. -/
def sendHiBobShoutout (env : Env) (message : String) :
    List Call × Except JsError Unit :=
  match env.hibobOutcome with
  | .ok _ =>
      ([.hibobPost message env.hibobShoutoutType env.hibobVisibility], .ok ())
  | .error _ =>
      ([.hibobPost message env.hibobShoutoutType env.hibobVisibility], .ok ())

/-- The function `sendNotification(event, notificationConfig)`: resolve the template,
render the message, then route on `notificationConfig.type`. There is no
`try`/`catch` here: an error thrown by `getTemplate` or by the render step
leaves the function as an error (the cache keeps any mutation already made).
An unrecognized `type` falls through both `if` branches and does nothing. -/
def sendNotification (env : Env) (st : TemplateCache) (event : Event)
    (notificationConfig : NotificationRule) :
    TemplateCache × List Call × Except JsError Unit :=
  match getTemplate env st notificationConfig.template with
  | (st', tr, .error e) => (st', tr, .error e)
  | (st', tr, .ok template) =>
    match env.renderResult template.src (formatEventData env event) with
    | .error e => (st', tr, .error (.renderError e))
    | .ok message =>
      if notificationConfig.type = "slack" then
        (st', tr ++ (sendSlackMessage env message).1,
          (sendSlackMessage env message).2)
      else if notificationConfig.type = "hibob" then
        (st', tr ++ (sendHiBobShoutout env message).1,
          (sendHiBobShoutout env message).2)
      else (st', tr, .ok ())

/-! ## Scheduler lemmas -/

/-- The jobs that one event contributes during a poll cycle: one job per
configured offset whose fire instant is strictly in the future. -/
def plannedJobs (nowMs : Int) (notificationTimes : List ReminderOffset)
    (event : Event) : List ScheduledJob :=
  notificationTimes.filterMap (fun off =>
    match reminderTimeMs event off with
    | some t => if nowMs < t then some ⟨t, event, off⟩ else none
    | none => none)

theorem foldl_scheduleOne_jobs (nowMs : Int) (event : Event)
    (offs : List ReminderOffset) (st : SchedulerState) :
    (offs.foldl (scheduleOne nowMs event) st).jobs =
      st.jobs ++ plannedJobs nowMs offs event := by
  induction offs generalizing st with
  | nil => simp [plannedJobs]
  | cons o os ih =>
    rw [List.foldl_cons, ih]
    cases h : reminderTimeMs event o with
    | none => simp [plannedJobs, List.filterMap_cons, h, scheduleOne]
    | some t =>
      by_cases hlt : nowMs < t
      · simp [plannedJobs, List.filterMap_cons, h, hlt, scheduleOne, scheduleJob]
      · simp [plannedJobs, List.filterMap_cons, h, hlt, scheduleOne]

theorem scheduleReminders_jobs (fetchResult : Except String (List Event))
    (offs : List ReminderOffset) (nowMs : Int) (st : SchedulerState) :
    (scheduleReminders fetchResult offs nowMs st).jobs =
      st.jobs ++ (getUpcomingEvents fetchResult).flatMap (plannedJobs nowMs offs) := by
  simp only [scheduleReminders]
  generalize getUpcomingEvents fetchResult = events
  induction events generalizing st with
  | nil => simp
  | cons e es ih =>
    rw [List.foldl_cons, ih, foldl_scheduleOne_jobs]
    simp [List.append_assoc]

theorem mem_plannedJobs {nowMs : Int} {offs : List ReminderOffset}
    {event : Event} {j : ScheduledJob} :
    j ∈ plannedJobs nowMs offs event ↔
      ∃ off ∈ offs, ∃ m : Int, off.minutes = some m ∧
        nowMs < event.startMs - m * 60000 ∧
        j = ⟨event.startMs - m * 60000, event, off⟩ := by
  unfold plannedJobs
  rw [List.mem_filterMap]
  constructor
  · rintro ⟨off, hmem, hoff⟩
    cases hm : off.minutes with
    | none => simp [reminderTimeMs, hm] at hoff
    | some m =>
      simp only [reminderTimeMs, hm, Option.map_some'] at hoff
      by_cases hlt : nowMs < event.startMs - m * 60000
      · rw [if_pos hlt] at hoff
        exact ⟨off, hmem, m, hm, hlt, (Option.some_injective _ hoff).symm⟩
      · rw [if_neg hlt] at hoff
        exact absurd hoff (by simp)
  · rintro ⟨off, hmem, m, hm, hlt, rfl⟩
    exact ⟨off, hmem, by simp [reminderTimeMs, hm, hlt]⟩

/-! ## Claims about the scheduling core -/

/-- C1: the claim requires the scheduling step to be idempotent per
(event identifier, rule) pair, but the code passes only `(date, callback)`
to `schedule.scheduleJob`, which registers a fresh anonymous job on every
call. Re-running `scheduleReminders` for the same single event and single
offset leaves two identical live jobs in the registry, not one. -/
theorem scheduleReminders_repoll_duplicates :
    (scheduleReminders
        (.ok [⟨"e1", "standup", 7200000, none, none, none⟩])
        [⟨some 10, "10 minutes"⟩] 0
        (scheduleReminders (.ok [⟨"e1", "standup", 7200000, none, none, none⟩])
          [⟨some 10, "10 minutes"⟩] 0 ⟨[]⟩)).jobs =
      [⟨6600000, ⟨"e1", "standup", 7200000, none, none, none⟩,
          ⟨some 10, "10 minutes"⟩⟩,
       ⟨6600000, ⟨"e1", "standup", 7200000, none, none, none⟩,
          ⟨some 10, "10 minutes"⟩⟩] := rfl

/-- C2: a poll cycle starting from an empty registry schedules a job for an
event and an offset of `m` minutes if and only if
`event.startMs - m * 60000 > nowMs`, with strict inequality. -/
theorem reminder_scheduled_iff_future (events : List Event)
    (offs : List ReminderOffset) (nowMs m : Int) (event : Event)
    (off : ReminderOffset) (hev : event ∈ events) (hoff : off ∈ offs)
    (hm : off.minutes = some m) :
    (∃ j ∈ (scheduleReminders (.ok events) offs nowMs ⟨[]⟩).jobs,
        j.event = event ∧ j.rule = off) ↔
      nowMs < event.startMs - m * 60000 := by
  constructor
  · rintro ⟨j, hj, hje, hjr⟩
    rw [scheduleReminders_jobs] at hj
    simp only [List.nil_append] at hj
    rw [List.mem_flatMap] at hj
    obtain ⟨ev, _hevmem, hjp⟩ := hj
    obtain ⟨off2, _hoff2, m2, hm2, hlt2, rfl⟩ := mem_plannedJobs.1 hjp
    have hee : ev = event := hje
    have hoo : off2 = off := hjr
    subst hee; subst hoo
    rw [hm] at hm2
    obtain rfl : m = m2 := Option.some.inj hm2
    exact hlt2
  · intro hlt
    refine ⟨⟨event.startMs - m * 60000, event, off⟩, ?_, rfl, rfl⟩
    rw [scheduleReminders_jobs]
    simp only [List.nil_append]
    rw [List.mem_flatMap]
    exact ⟨event, hev, mem_plannedJobs.2 ⟨off, hoff, m, hm, hlt, rfl⟩⟩

/-- Witness for C2: with one event starting at 7 200 000 ms, a 10 minute
offset and `now = 0`, the job is scheduled iff `0 < 7 200 000 - 600 000`. -/
theorem reminder_scheduled_iff_future_witness :
    ((∃ j ∈ (scheduleReminders
          (.ok [⟨"e1", "standup", 7200000, none, none, none⟩])
          [⟨some 10, "10 minutes"⟩] 0 ⟨[]⟩).jobs,
        j.event = (⟨"e1", "standup", 7200000, none, none, none⟩ : Event) ∧
        j.rule = (⟨some 10, "10 minutes"⟩ : ReminderOffset)) ↔
      (0 : Int) < 7200000 - 10 * 60000) :=
  reminder_scheduled_iff_future _ _ 0 10 _ _ (List.mem_singleton.2 rfl)
    (List.mem_singleton.2 rfl) rfl

/-- C3: every job placed in the registry by a poll cycle has its fire
instant exactly `event.startMs - m * 60000` for its offset of `m` minutes
(an invariant preserved from any registry state that already satisfies it). -/
theorem scheduled_job_fire_instant (fetchResult : Except String (List Event))
    (offs : List ReminderOffset) (nowMs : Int) (st : SchedulerState)
    (hst : ∀ j ∈ st.jobs, ∀ m : Int, j.rule.minutes = some m →
      j.fireMs = j.event.startMs - m * 60000) :
    ∀ j ∈ (scheduleReminders fetchResult offs nowMs st).jobs, ∀ m : Int,
      j.rule.minutes = some m → j.fireMs = j.event.startMs - m * 60000 := by
  intro j hj m hm
  rw [scheduleReminders_jobs] at hj
  rcases List.mem_append.1 hj with h | h
  · exact hst j h m hm
  · rw [List.mem_flatMap] at h
    obtain ⟨ev, _hev, hjp⟩ := h
    obtain ⟨off, _hoff, m2, hm2, _hlt, rfl⟩ := mem_plannedJobs.1 hjp
    have hmm : off.minutes = some m := hm
    rw [hm2] at hmm
    obtain rfl : m2 = m := Option.some.inj hmm
    rfl

/-- Witness for C3: the job scheduled for the concrete event fires at
`7 200 000 - 10 * 60 000` ms. -/
theorem scheduled_job_fire_instant_witness :
    (⟨6600000, ⟨"e1", "standup", 7200000, none, none, none⟩,
        ⟨some 10, "10 minutes"⟩⟩ : ScheduledJob).fireMs =
      (7200000 : Int) - 10 * 60000 :=
  scheduled_job_fire_instant (.ok [⟨"e1", "standup", 7200000, none, none, none⟩])
    [⟨some 10, "10 minutes"⟩] 0 ⟨[]⟩
    (fun j hj => absurd hj (List.not_mem_nil j)) _ (by decide) 10 rfl

/-- C6: when the calendar fetch fails, `getUpcomingEvents` swallows the
error and returns the empty event list, so the poll cycle leaves the job
registry exactly as it was (no job scheduled, no error escapes). -/
theorem fetch_error_yields_no_jobs (err : String) (offs : List ReminderOffset)
    (nowMs : Int) (st : SchedulerState) :
    getUpcomingEvents (.error err) = [] ∧
      scheduleReminders (.error err) offs nowMs st = st :=
  ⟨rfl, rfl⟩

/-! ## Claims about the offset parser -/

theorem parseTime_eq_unitToMinutes (s amt unit : String)
    (hsplit : jsSplitSpace s = [amt, unit]) :
    parseTimeToMinutes s = unitToMinutes amt unit := by
  simp only [parseTimeToMinutes, hsplit]

theorem unitToMinutes_unknown (amt unit : String)
    (hu : unit ∉ (["minute", "minutes", "hour", "hours", "day", "days"] :
      List String)) :
    unitToMinutes amt unit = .error ("Unsupported time unit: " ++ unit) := by
  simp only [List.mem_cons, List.not_mem_nil, or_false, not_or] at hu
  unfold unitToMinutes
  split <;> simp_all

/-- C4: for every offset string splitting into an amount and a unit, a unit
of `minute(s)`, `hour(s)` or `day(s)` (exact match) yields the amount times
1, 60 or 1440 minutes respectively, and any other unit yields the
`Unsupported time unit` error naming that unit. -/
theorem offset_parse_spec (s amt unit : String)
    (hsplit : jsSplitSpace s = [amt, unit]) :
    (∀ v : Int, parseIntJS amt = some v →
      ((unit = "minute" ∨ unit = "minutes") →
        parseTimeToMinutes s = .ok (some (v * 1))) ∧
      ((unit = "hour" ∨ unit = "hours") →
        parseTimeToMinutes s = .ok (some (v * 60))) ∧
      ((unit = "day" ∨ unit = "days") →
        parseTimeToMinutes s = .ok (some (v * 1440)))) ∧
    (unit ∉ (["minute", "minutes", "hour", "hours", "day", "days"] :
        List String) →
      parseTimeToMinutes s = .error ("Unsupported time unit: " ++ unit)) := by
  rw [parseTime_eq_unitToMinutes s amt unit hsplit]
  refine ⟨fun v hv => ⟨fun hu => ?_, fun hu => ?_, fun hu => ?_⟩,
    fun hu => unitToMinutes_unknown amt unit hu⟩
  · rcases hu with rfl | rfl <;> simp [unitToMinutes, hv]
  · rcases hu with rfl | rfl <;> simp [unitToMinutes, hv]
  · have h1440 : v * 24 * 60 = v * 1440 := by ring
    rcases hu with rfl | rfl <;>
      simp [unitToMinutes, hv, h1440]

/-- Witness for C4: the spec's three examples plus an unrecognized unit. -/
theorem offset_parse_spec_witness :
    parseTimeToMinutes "1 day" = .ok (some 1440) ∧
    parseTimeToMinutes "4 hours" = .ok (some 240) ∧
    parseTimeToMinutes "10 minutes" = .ok (some 10) ∧
    parseTimeToMinutes "2 weeks" = .error "Unsupported time unit: weeks" := by
  refine ⟨?_, ?_, ?_, ?_⟩
  · have h := ((offset_parse_spec "1 day" "1" "day" (by decide)).1 1 rfl).2.2
      (Or.inl rfl)
    have e : (1 : Int) * 1440 = 1440 := by norm_num
    rw [e] at h
    exact h
  · have h := ((offset_parse_spec "4 hours" "4" "hours" (by decide)).1 4 rfl).2.1
      (Or.inr rfl)
    have e : (4 : Int) * 60 = 240 := by norm_num
    rw [e] at h
    exact h
  · have h := ((offset_parse_spec "10 minutes" "10" "minutes" (by decide)).1 10
      rfl).1 (Or.inr rfl)
    have e : (10 : Int) * 1 = 10 := by norm_num
    rw [e] at h
    exact h
  · exact (offset_parse_spec "2 weeks" "2" "weeks" (by decide)).2 (by decide)

/-- C5 counterexample: the offset string with amount 0 and a recognized unit
parses successfully, yet the returned minute count is 0, which is not
strictly positive — the claim fails as stated. -/
theorem offset_minutes_zero_counterexample :
    parseTimeToMinutes "0 minutes" = .ok (some 0) ∧ ¬ ((0 : Int) < 0) :=
  ⟨rfl, by decide⟩

/-- C5 (amended): for every offset string whose amount parses to a strictly
positive integer and whose unit is a recognized day/hour/minute unit, the
returned minute count is a strictly positive integer. -/
theorem offset_minutes_pos (s amt unit : String) (v : Int)
    (hsplit : jsSplitSpace s = [amt, unit])
    (hunit : unit ∈ (["minute", "minutes", "hour", "hours", "day", "days"] :
      List String))
    (hv : parseIntJS amt = some v) (hpos : 0 < v) :
    ∃ m : Int, parseTimeToMinutes s = .ok (some m) ∧ 0 < m := by
  rw [parseTime_eq_unitToMinutes s amt unit hsplit]
  simp only [List.mem_cons, List.not_mem_nil, or_false] at hunit
  have h60 : (0 : Int) < 60 := by norm_num
  have h24 : (0 : Int) < 24 := by norm_num
  rcases hunit with rfl | rfl | rfl | rfl | rfl | rfl
  · exact ⟨v, by simp [unitToMinutes, hv], hpos⟩
  · exact ⟨v, by simp [unitToMinutes, hv], hpos⟩
  · exact ⟨v * 60, by simp [unitToMinutes, hv], mul_pos hpos h60⟩
  · exact ⟨v * 60, by simp [unitToMinutes, hv], mul_pos hpos h60⟩
  · exact ⟨v * 24 * 60, by simp [unitToMinutes, hv], mul_pos (mul_pos hpos h24) h60⟩
  · exact ⟨v * 24 * 60, by simp [unitToMinutes, hv], mul_pos (mul_pos hpos h24) h60⟩

/-- Witness for C5 (amended): amount 10 with unit minutes gives a strictly
positive minute count. -/
theorem offset_minutes_pos_witness :
    ∃ m : Int, parseTimeToMinutes "10 minutes" = .ok (some m) ∧ 0 < m :=
  offset_minutes_pos "10 minutes" "10" "minutes" 10 (by decide) (by decide)
    rfl (by decide)

/-! ## Dispatch lemmas -/

theorem sendSlackMessage_eq (env : Env) (message : String) :
    sendSlackMessage env message =
      ([.postMessage env.slackChannelId message], .ok ()) := by
  unfold sendSlackMessage
  cases env.slackOutcome <;> rfl

theorem sendHiBobShoutout_eq (env : Env) (message : String) :
    sendHiBobShoutout env message =
      ([.hibobPost message env.hibobShoutoutType env.hibobVisibility],
        .ok ()) := by
  unfold sendHiBobShoutout
  cases env.hibobOutcome <;> rfl

theorem getTemplate_no_delivery (env : Env) (st : TemplateCache)
    (templateName : String) :
    ∀ c ∈ (getTemplate env st templateName).2.1, c.isDelivery = false := by
  unfold getTemplate
  cases hl : st.templates.lookup templateName with
  | some t => simp [hl]
  | none =>
    cases hf : env.files (templatePath templateName) with
    | none => simp [hl, hf, Call.isDelivery]
    | some content => simp [hl, hf, Call.isDelivery]

theorem getTemplate_lookup_of_ok (env : Env) (st st1 : TemplateCache)
    (templateName : String) (tr : List Call) (t : Template)
    (h : getTemplate env st templateName = (st1, tr, .ok t)) :
    st1.templates.lookup templateName = some t := by
  unfold getTemplate at h
  cases hl : st.templates.lookup templateName with
  | some t2 =>
    rw [hl] at h
    simp only [Prod.mk.injEq, Except.ok.injEq] at h
    obtain ⟨rfl, -, rfl⟩ := h
    exact hl
  | none =>
    rw [hl] at h
    cases hf : env.files (templatePath templateName) with
    | none =>
      rw [hf] at h
      simp at h
    | some content =>
      rw [hf] at h
      simp only [Prod.mk.injEq, Except.ok.injEq] at h
      obtain ⟨hst, -, rfl⟩ := h
      rw [← hst]
      simp [List.lookup]

/-- A restatement of `sendNotification` that makes explicit that the
delivery outcomes never influence the result (the senders catch failures). -/
theorem sendNotification_eq (env : Env) (st : TemplateCache) (event : Event)
    (rule : NotificationRule) :
    sendNotification env st event rule =
      match getTemplate env st rule.template with
      | (st', tr, .error e) => (st', tr, .error e)
      | (st', tr, .ok t) =>
        match env.renderResult t.src (formatEventData env event) with
        | .error e => (st', tr, .error (.renderError e))
        | .ok message =>
          if rule.type = "slack" then
            (st', tr ++ [.postMessage env.slackChannelId message], .ok ())
          else if rule.type = "hibob" then
            (st', tr ++ [.hibobPost message env.hibobShoutoutType
              env.hibobVisibility], .ok ())
          else (st', tr, .ok ()) := by
  unfold sendNotification
  rcases hgt : getTemplate env st rule.template with ⟨st', tr, r⟩
  cases r with
  | error e => rfl
  | ok t =>
    cases hr : env.renderResult t.src (formatEventData env event) with
    | error e => simp [hr]
    | ok message => simp [hr, sendSlackMessage_eq, sendHiBobShoutout_eq]

/-! ## Claims about the dispatch -/

/-- A world with no template files; renders and deliveries succeed. -/
def envNone : Env :=
  { files := fun _ => none
    renderResult := fun src _ => .ok src
    localeString := fun _ => ""
    slackChannelId := "C123"
    hibobShoutoutType := "kudos"
    hibobVisibility := "all"
    slackOutcome := .ok ()
    hibobOutcome := .ok () }

/-- A world holding one template file, whose deliveries both fail. -/
def envFail : Env :=
  { files := fun p =>
      if p = "config/templates/event.hbs" then some "hello" else none
    renderResult := fun src _ => .ok src
    localeString := fun _ => ""
    slackChannelId := "C123"
    hibobShoutoutType := "kudos"
    hibobVisibility := "all"
    slackOutcome := .error "boom"
    hibobOutcome := .error "bang" }

/-- C7 counterexample: with the template file missing, the fired job's
dispatch ends in the uncaught template error instead of returning normally,
refuting the claim that the error is caught and logged inside that job's
unit of work. -/
theorem sendNotification_error_not_caught :
    (sendNotification envNone ⟨[]⟩
        ⟨"e1", "standup", 7200000, none, none, none⟩
        ⟨"10 minutes", "slack", "event.hbs"⟩).2.2 =
      .error (.fileNotFound "config/templates/event.hbs") ∧
    (sendNotification envNone ⟨[]⟩
        ⟨"e1", "standup", 7200000, none, none, none⟩
        ⟨"10 minutes", "slack", "event.hbs"⟩).2.2 ≠ .ok () :=
  ⟨rfl, fun h => nomatch h⟩

/-- C7 (amended): when the template lookup or the render step fails, that
reminder's dispatch is skipped — no delivery collaborator is invoked — but
the error is not caught inside the dispatch: `sendNotification` propagates
it out of the job's unit of work. -/
theorem sendNotification_template_error_skips_dispatch (env : Env)
    (st st' : TemplateCache) (event : Event) (rule : NotificationRule)
    (tr : List Call) :
    (∀ e : JsError, getTemplate env st rule.template = (st', tr, .error e) →
      sendNotification env st event rule = (st', tr, .error e) ∧
        ∀ c ∈ tr, c.isDelivery = false) ∧
    (∀ (t : Template) (msg : String),
      getTemplate env st rule.template = (st', tr, .ok t) →
      env.renderResult t.src (formatEventData env event) = .error msg →
      sendNotification env st event rule =
          (st', tr, .error (.renderError msg)) ∧
        ∀ c ∈ tr, c.isDelivery = false) := by
  constructor
  · intro e h
    have hnd := getTemplate_no_delivery env st rule.template
    rw [h] at hnd
    refine ⟨?_, hnd⟩
    rw [sendNotification_eq, h]
  · intro t msg h hr
    have hnd := getTemplate_no_delivery env st rule.template
    rw [h] at hnd
    refine ⟨?_, hnd⟩
    rw [sendNotification_eq, h]
    simp [hr]

/-- Witness for C7 (amended): the missing-template case at a concrete
environment. -/
theorem sendNotification_template_error_witness :
    sendNotification envNone ⟨[]⟩
        ⟨"e1", "standup", 7200000, none, none, none⟩
        ⟨"10 minutes", "slack", "event.hbs"⟩ =
      (⟨[]⟩, [.readFile "config/templates/event.hbs"],
        .error (.fileNotFound "config/templates/event.hbs")) :=
  ((sendNotification_template_error_skips_dispatch envNone ⟨[]⟩ ⟨[]⟩
      ⟨"e1", "standup", 7200000, none, none, none⟩
      ⟨"10 minutes", "slack", "event.hbs"⟩
      [.readFile "config/templates/event.hbs"]).1
    (.fileNotFound "config/templates/event.hbs") rfl).1

/-- C8: a failed delivery call is caught inside the sending function, which
returns normally after exactly one call to the collaborator (no retry), and
the delivery outcomes have no effect at all on how any job's dispatch runs —
so one job's delivery failure cannot prevent another job from succeeding. -/
theorem delivery_error_caught_no_retry (env : Env) (msg eS eH : String)
    (hs : env.slackOutcome = .error eS) (hh : env.hibobOutcome = .error eH) :
    sendSlackMessage env msg =
        ([.postMessage env.slackChannelId msg], .ok ()) ∧
    sendHiBobShoutout env msg =
        ([.hibobPost msg env.hibobShoutoutType env.hibobVisibility],
          .ok ()) ∧
    ∀ (st : TemplateCache) (event : Event) (rule : NotificationRule),
      sendNotification env st event rule =
        sendNotification
          { env with slackOutcome := .ok (), hibobOutcome := .ok () }
          st event rule := by
  refine ⟨sendSlackMessage_eq env msg, sendHiBobShoutout_eq env msg,
    fun st event rule => ?_⟩
  rw [sendNotification_eq, sendNotification_eq]
  exact rfl

/-- Witness for C8: a failing Slack delivery at a concrete environment is
swallowed after a single send attempt. -/
theorem delivery_error_caught_no_retry_witness :
    sendSlackMessage envFail "hi" = ([.postMessage "C123" "hi"], .ok ()) :=
  (delivery_error_caught_no_retry envFail "hi" "boom" "bang" rfl rfl).1

/-- C9: when the rule's channel type is neither `slack` nor `hibob` and the
template resolves and renders, the dispatch is silently a no-op: it returns
normally and no delivery collaborator is invoked. -/
theorem unknown_type_silent_noop (env : Env) (st st' : TemplateCache)
    (event : Event) (rule : NotificationRule) (tr : List Call) (t : Template)
    (msg : String)
    (h1 : rule.type ≠ "slack") (h2 : rule.type ≠ "hibob")
    (hgt : getTemplate env st rule.template = (st', tr, .ok t))
    (hr : env.renderResult t.src (formatEventData env event) = .ok msg) :
    sendNotification env st event rule = (st', tr, .ok ()) ∧
      ∀ c ∈ (sendNotification env st event rule).2.1,
        c.isDelivery = false := by
  have heq : sendNotification env st event rule = (st', tr, .ok ()) := by
    rw [sendNotification_eq, hgt]
    simp [hr, h1, h2]
  refine ⟨heq, ?_⟩
  rw [heq]
  have hnd := getTemplate_no_delivery env st rule.template
  rw [hgt] at hnd
  exact hnd

/-- Witness for C9: an `email` rule at a concrete environment dispatches
nothing and raises nothing. -/
theorem unknown_type_silent_noop_witness :
    sendNotification envFail ⟨[]⟩
        ⟨"e1", "standup", 7200000, none, none, none⟩
        ⟨"10 minutes", "email", "event.hbs"⟩ =
      (⟨[("event.hbs", ⟨"hello"⟩)]⟩,
        [.readFile "config/templates/event.hbs"], .ok ()) :=
  (unknown_type_silent_noop envFail ⟨[]⟩ ⟨[("event.hbs", ⟨"hello"⟩)]⟩
    ⟨"e1", "standup", 7200000, none, none, none⟩
    ⟨"10 minutes", "email", "event.hbs"⟩
    [.readFile "config/templates/event.hbs"] ⟨"hello"⟩ "hello"
    (by decide) (by decide) rfl rfl).1

/-- C10: a successful `getTemplate` call caches the compiled template, and a
second call with the same name returns the identical cached template with no
file read (empty trace) and no cache change — two calls behave as one. -/
theorem getTemplate_idempotent (env : Env) (st st1 : TemplateCache)
    (templateName : String) (tr : List Call) (t : Template)
    (h : getTemplate env st templateName = (st1, tr, .ok t)) :
    getTemplate env st1 templateName = (st1, [], .ok t) := by
  have hl := getTemplate_lookup_of_ok env st st1 templateName tr t h
  unfold getTemplate
  rw [hl]

/-- Witness for C10: after a first successful read of `event.hbs`, the
second call returns the cached template and reads nothing. -/
theorem getTemplate_idempotent_witness :
    getTemplate envFail ⟨[("event.hbs", ⟨"hello"⟩)]⟩ "event.hbs" =
      (⟨[("event.hbs", ⟨"hello"⟩)]⟩, [], .ok ⟨"hello"⟩) :=
  getTemplate_idempotent envFail ⟨[]⟩ ⟨[("event.hbs", ⟨"hello"⟩)]⟩
    "event.hbs" [.readFile "config/templates/event.hbs"] ⟨"hello"⟩ rfl

end Reminderoo
